import Mathlib

/-!
Verification of the RAG-Ollama-Langchain pipeline scripts.

We shallowly embed the orchestration logic of the two main scripts,
`rag-langchain-ollama.py` and `rag-gemma-multimodel-ollma.py`.  External
collaborators (the file system, the PDF loader, the embedding provider, the
vector store and the generation model) are passed in as function parameters;
console output, provider invocations and process exit codes are reified as
data so that theorems can speak about them.  Python strings are modelled as
`String`, except where character-level reasoning is needed (the interactive
loop's `strip`/`lower`, the chunker), where `List Char` is used.
-/

namespace RAGOllama

/-- A LangChain `Document`: page content plus the two metadata fields this
repository reads or writes (`page`, `source`).  `metaPage = none` models a
document whose metadata has no `page` key (printed as `unknown`). -/
structure Document where
  page_content : String
  metaPage : Option Nat
  metaSource : String
deriving Repr, DecidableEq

/-! ## Document loader (`load_pdf_documents`, rag-langchain-ollama.py lines 23-59) -/

/-- Outcome of `os.path.exists` plus `PyPDFLoader(...).load()` for one path:
the path is missing, the load raises, or it returns a list of page documents. -/
inductive FileStatus where
  | missing
  | loadError (err : String)
  | loaded (pages : List Document)
deriving Repr, DecidableEq

/-- One console diagnostic emitted by the loader loop for one input path. -/
inductive LoadLog where
  | loadedOk (path : String) (numPages : Nat)
  | errorLoading (path : String) (err : String)
  | fileNotFound (path : String)
deriving Repr, DecidableEq

/-- One iteration of the `for pdf_path in pdf_paths` loop: the accumulator is
(`all_documents`, `successful_loads`, console log). -/
def loadStep (fs : String → FileStatus) (acc : List Document × Nat × List LoadLog)
    (p : String) : List Document × Nat × List LoadLog :=
  match fs p with
  | .loaded pages => (acc.1 ++ pages, acc.2.1 + 1, acc.2.2 ++ [.loadedOk p pages.length])
  | .loadError e => (acc.1, acc.2.1, acc.2.2 ++ [.errorLoading p e])
  | .missing => (acc.1, acc.2.1, acc.2.2 ++ [.fileNotFound p])

/-- `load_pdf_documents`: fold the loader loop over the input paths, then
`sys.exit(1)` (modelled as `.error 1`) when no pages at all were collected,
else return the accumulated documents.  The second component is the console
log of per-file diagnostics. -/
def load_pdf_documents (fs : String → FileStatus) (pdf_paths : List String) :
    Except Nat (List Document) × List LoadLog :=
  let r := pdf_paths.foldl (loadStep fs) ([], 0, [])
  if r.1.isEmpty then (.error 1, r.2.2) else (.ok r.1, r.2.2)

/-- The pages a single path contributes to the loader's result. -/
def pagesOf (fs : String → FileStatus) (p : String) : List Document :=
  match fs p with
  | .loaded pages => pages
  | _ => []

/-- The diagnostic a single path contributes to the loader's console log. -/
def logOf (fs : String → FileStatus) (p : String) : LoadLog :=
  match fs p with
  | .loaded pages => .loadedOk p pages.length
  | .loadError e => .errorLoading p e
  | .missing => .fileNotFound p

/-! ## Interactive chat loop (`run_interactive_chat`, rag-langchain-ollama.py lines 172-216) -/

/-- Python `str.strip()` over a character list: drop whitespace from both ends. -/
def pyStrip (s : List Char) : List Char :=
  ((s.dropWhile Char.isWhitespace).reverse.dropWhile Char.isWhitespace).reverse

/-- Python `str.lower()` over a character list. -/
def pyLower (s : List Char) : List Char := s.map Char.toLower

/-- The literal exit commands accepted by the chat loop. -/
def exitCommands : List (List Char) := [['q'], "quit".toList, "exit".toList]

/-- One console event of the chat loop. -/
inductive ChatEvent where
  | goodbye
  | emptyPrompt
  | answer (text : String)
  | errorMsg (err : String)
deriving Repr, DecidableEq

/-- `run_interactive_chat`: the `while True` loop, driven by the list of lines
`input()` will deliver (`none` models `input()` raising
`KeyboardInterrupt`/`EOFError`).  The RAG chain is a fallible collaborator:
`.error` models `rag_chain.invoke` raising.  Returns the console events and
the list of questions actually forwarded to the chain, in order. -/
def run_interactive_chat (rag_chain : List Char → Except String String) :
    List (Option (List Char)) → List ChatEvent × List (List Char)
  | [] => ([.goodbye], [])
  | none :: _ => ([.goodbye], [])
  | some line :: rest =>
    let question := pyStrip line
    if exitCommands.contains (pyLower question) then ([.goodbye], [])
    else if question = [] then
      let r := run_interactive_chat rag_chain rest
      (.emptyPrompt :: r.1, r.2)
    else
      match rag_chain question with
      | .ok ans =>
        let r := run_interactive_chat rag_chain rest
        (.answer ans :: r.1, question :: r.2)
      | .error e =>
        let r := run_interactive_chat rag_chain rest
        (.errorMsg e :: r.1, question :: r.2)

/-! ## Vision-transcription ingestion (`ingest_pdf`, rag-gemma-multimodel-ollma.py lines 25-70) -/

/-- One console line of the per-page transcription loop. -/
inductive PageLog where
  | processed (page : Nat)
  | pageError (page : Nat) (err : String)
deriving Repr, DecidableEq

/-- The `for i, page in enumerate(pages)` loop of `ingest_pdf`.  `imgs` are the
base64-encoded page images in PDF order, `i` the running `enumerate` index;
`vision` models `vision_llm.invoke` on one page image (`.error` = the call
raised).  Returns the accumulated documents and the console log. -/
def ingestPages (vision : String → Except String String) (file_path : String) :
    List String → Nat → List Document × List PageLog
  | [], _ => ([], [])
  | img :: imgs, i =>
    let r := ingestPages vision file_path imgs (i + 1)
    match vision img with
    | .ok content => (⟨content, some (i + 1), file_path⟩ :: r.1, .processed (i + 1) :: r.2)
    | .error e => (r.1, .pageError (i + 1) e :: r.2)

/-- `ingest_pdf`: raise when the file is missing, propagate a failure of
`convert_from_path` (`conv = .error`), otherwise run the per-page loop from
index 0. -/
def ingest_pdf (vision : String → Except String String) (file_path : String)
    (fileExists : Bool) (conv : Except String (List String)) :
    Except String (List Document × List PageLog) :=
  if fileExists then
    match conv with
    | .error e => .error e
    | .ok imgs => .ok (ingestPages vision file_path imgs 0)
  else
    .error ("PDF file not found: " ++ file_path)

/-! ## Query pipeline (`query_rag`, rag-gemma-multimodel-ollma.py lines 89-133) -/

/-- The effects of one `query_rag` call.  `retVal` is the Python return value
of the function (always `None`: it only prints). -/
structure QueryTrace where
  retrieved : List Document
  printedPages : List (Option Nat)
  noticeNoResults : Bool
  llmCalls : List String
  printedAnswer : Option String
  retVal : Option (String × List (String × Option Nat))
deriving Repr, DecidableEq

/-- The f-string prompt built by `query_rag`. -/
def buildQueryPrompt (context query : String) : String :=
  "Based on the following context, answer the question. If the answer is not in the context, say so.\n\nContext:\n"
    ++ context ++ "\n\nQuestion: " ++ query ++ "\n\nAnswer:"

/-- `query_rag`: raise when the persisted store directory is absent; retrieve
the top 3 chunks via `similarity_search` (abstracted as `store`, which covers
embedding the query and ranking); on zero results print a notice and return;
otherwise print the retrieved page numbers, join the contents with blank
lines, invoke the LLM once on the assembled prompt and print its output.
The function returns `None` on every path. -/
def query_rag (dbExists : Bool) (store : String → Nat → List Document)
    (llm : String → String) (query : String) : Except String QueryTrace :=
  if dbExists then
    let results := store query 3
    if results.isEmpty then
      .ok { retrieved := results, printedPages := [], noticeNoResults := true,
            llmCalls := [], printedAnswer := none, retVal := none }
    else
      let context := String.intercalate "\n\n" (results.map (·.page_content))
      let prompt := buildQueryPrompt context query
      .ok { retrieved := results, printedPages := results.map (·.metaPage),
            noticeNoResults := false, llmCalls := [prompt],
            printedAnswer := some (llm prompt), retVal := none }
  else
    .error "Database not found. Run ingestion first."

/-! ## Top-level flow of rag-gemma-multimodel-ollma.py (lines 136-167) -/

/-- State of the persisted Chroma directory. -/
inductive StoreState where
  | absent
  | present (docs : List Document)
deriving Repr, DecidableEq

/-- `create_rag_db`: raises on an empty document list, otherwise writes a
fresh store holding exactly `docs`. -/
def create_rag_db (docs : List Document) : Except String StoreState :=
  if docs.isEmpty then .error "No documents to create database from"
  else .ok (.present docs)

/-- Outcome of the `__main__` block up to the first query. -/
structure MainTrace where
  ingestRan : Bool
  storeAfter : StoreState
  exitCode : Option Nat
deriving Repr, DecidableEq

/-- The `__main__` block: exit 1 when the Poppler directory is missing; when
the Chroma directory does not exist, run `ingest_pdf` then `create_rag_db`
(exit 1 when either raises), replacing the store wholesale with the newly
ingested documents; when it exists, skip ingestion and keep the store as-is.
`ingestResult` abstracts the outcome of `ingest_pdf` on `PDF_FILE`. -/
def mainGemma (popplerExists : Bool) (store : StoreState)
    (ingestResult : Except String (List Document)) : MainTrace :=
  if popplerExists then
    match store with
    | .present docs => { ingestRan := false, storeAfter := .present docs, exitCode := none }
    | .absent =>
      match ingestResult with
      | .error _ => { ingestRan := true, storeAfter := .absent, exitCode := some 1 }
      | .ok docs =>
        match create_rag_db docs with
        | .error _ => { ingestRan := true, storeAfter := .absent, exitCode := some 1 }
        | .ok st => { ingestRan := true, storeAfter := st, exitCode := none }
  else
    { ingestRan := false, storeAfter := store, exitCode := some 1 }

/-! ## Chunker (spec §4.2; called from `split_documents`, rag-langchain-ollama.py lines 62-84) -/

/-- A TextUnit as produced by the Loader (spec §3): one page of content with
its provenance.  Content is a character sequence. -/
structure TextUnit where
  content : List Char
  source_id : String
  page_number : Option Nat
deriving Repr, DecidableEq

/-- A Chunk derived from a TextUnit (spec §3). -/
structure Chunk where
  content : List Char
  source_id : String
  page_number : Option Nat
  chunk_index : Nat
deriving Repr, DecidableEq

/-- Window start-to-start distance.  With the spec's required
`chunk_overlap < chunk_size` this is exactly `S - O`; the `max` with 1 only
makes the recursion total on degenerate configurations. -/
def stride (S O : Nat) : Nat := max (S - O) 1

/-- The sliding-window recursion, structured over a fuel counter so that it
is structurally recursive (each step consumes at least `stride S O ≥ 1`
characters, so `fuel = content.length` always suffices; see
`slideChunksFuel_fuel_irrel`). -/
def slideChunksFuel (S O : Nat) : Nat → List Char → List (List Char)
  | 0, _ => []
  | fuel + 1, content =>
    if content.length = 0 then []
    else if content.length ≤ S then [content]
    else content.take S :: slideChunksFuel S O fuel (content.drop (stride S O))

/-- Modelled from the spec: the splitting algorithm itself lives in the
external `RecursiveCharacterTextSplitter` library, not in this repository;
`split_documents` only instantiates it with (`chunk_size`, `chunk_overlap`).
Per spec §4.2 the Chunker slides a window of length `chunk_size` over the
TextUnit's content with stride `chunk_size - chunk_overlap`; once the
remaining text fits in one window it is emitted as the final chunk. -/
def slideChunks (S O : Nat) (content : List Char) : List (List Char) :=
  slideChunksFuel S O content.length content

/-- Modelled from the spec: chunk one TextUnit, copying `source_id` and
`page_number` into every derived Chunk and numbering chunks in order
(spec §3, §4.2). -/
def chunkTextUnit (S O : Nat) (t : TextUnit) : List Chunk :=
  (slideChunks S O t.content).enum.map fun p =>
    { content := p.2, source_id := t.source_id, page_number := t.page_number,
      chunk_index := p.1 }

/-- Modelled from the spec: `split_documents` chunks each TextUnit
independently and concatenates (spec §4.2: no chunk crosses a TextUnit
boundary). -/
def split_documents (units : List TextUnit) (chunk_size chunk_overlap : Nat) :
    List Chunk :=
  units.flatMap (chunkTextUnit chunk_size chunk_overlap)

/-! ## Helper characterizations -/

/-- The document the transcription loop produces for the page with 0-based
enumeration index `p.1` and image `p.2` (none when the vision call fails). -/
def pageDoc (vision : String → Except String String) (file_path : String)
    (p : Nat × String) : Option Document :=
  match vision p.2 with
  | .ok content => some { page_content := content, metaPage := some (p.1 + 1),
                          metaSource := file_path }
  | .error _ => none

/-- The console line the transcription loop emits for one enumerated page. -/
def pageLogOf (vision : String → Except String String) (p : Nat × String) : PageLog :=
  match vision p.2 with
  | .ok _ => .processed (p.1 + 1)
  | .error e => .pageError (p.1 + 1) e

/-! ## Concrete collaborators used to instantiate the theorems -/

/-- A file system with one loadable PDF, one corrupt PDF, everything else
missing. -/
def fsDemo : String → FileStatus := fun p =>
  if p = "policy doc.pdf" then
    .loaded [{ page_content := "page one text", metaPage := some 0,
               metaSource := "policy doc.pdf" },
             { page_content := "page two text", metaPage := some 1,
               metaSource := "policy doc.pdf" }]
  else if p = "corrupt.pdf" then .loadError "EOF marker not found"
  else .missing

/-- A RAG chain whose provider is unreachable. -/
def chainUnreachable : List Char → Except String String := fun _ =>
  .error "connection refused"

/-- A vector store that never returns any chunk. -/
def storeEmpty : String → Nat → List Document := fun _ _ => []

/-- The single chunk of the end-to-end scenario of spec §8. -/
def docParis : Document :=
  { page_content := "Paris is the capital of France.", metaPage := some 1,
    metaSource := "policy doc.pdf" }

/-- A vector store holding exactly `docParis`. -/
def storeOne : String → Nat → List Document := fun _ _ => [docParis]

/-- A generation provider with a constant answer. -/
def llmConst : String → String := fun _ => "Paris."

/-- A vision model that fails on the image `"bad"` and transcribes the rest. -/
def visionDemo : String → Except String String := fun s =>
  if s = "bad" then .error "timeout" else .ok ("T:" ++ s)

/-- A TextUnit for the chunker theorems. -/
def tDemo : TextUnit :=
  { content := "Paris is the capital of France.".toList,
    source_id := "policy doc.pdf", page_number := some 1 }

/-- The first chunk `chunkTextUnit 5 2 tDemo` produces. -/
def cDemo : Chunk :=
  { content := "Paris".toList, source_id := "policy doc.pdf",
    page_number := some 1, chunk_index := 0 }

/-- The document `ingestPages visionDemo "book.pdf" ["a", "bad", "c"] 0`
produces for the third PDF page. -/
def dDemo : Document :=
  { page_content := "T:c", metaPage := some 3, metaSource := "book.pdf" }

/-! ## Helper lemmas -/

theorem loadStep_foldl (fs : String → FileStatus) (paths : List String)
    (d : List Document) (c : Nat) (l : List LoadLog) :
    paths.foldl (loadStep fs) (d, c, l) =
      (d ++ paths.flatMap (pagesOf fs),
       c + (paths.filter (fun p => match fs p with | .loaded _ => true | _ => false)).length,
       l ++ paths.map (logOf fs)) := by
  induction paths generalizing d c l with
  | nil => simp
  | cons p ps ih =>
    simp only [List.foldl_cons, List.flatMap_cons, List.map_cons, List.filter_cons]
    cases h : fs p with
    | loaded pages =>
      rw [loadStep, h, ih]
      simp [pagesOf, logOf, h, Nat.add_comm, Nat.add_assoc, Nat.add_left_comm]
    | loadError e =>
      rw [loadStep, h, ih]
      simp [pagesOf, logOf, h]
    | missing =>
      rw [loadStep, h, ih]
      simp [pagesOf, logOf, h]

theorem slideChunksFuel_head (S O fuel : Nat) (content : List Char)
    (h : content ≠ []) (hf : content.length ≤ fuel) :
    ∃ tl, slideChunksFuel S O fuel content = content.take S :: tl := by
  cases fuel with
  | zero => exact absurd (List.length_eq_zero.mp (Nat.le_zero.mp hf)) h
  | succ fuel =>
    rw [slideChunksFuel]
    have h0 : ¬ content.length = 0 := by simpa using h
    rw [if_neg h0]
    by_cases h1 : content.length ≤ S
    · exact ⟨[], by rw [if_pos h1, List.take_of_length_le h1]⟩
    · exact ⟨_, by rw [if_neg h1]⟩

theorem slideChunksFuel_length_le (S O fuel : Nat) :
    ∀ content, ∀ c ∈ slideChunksFuel S O fuel content, c.length ≤ S := by
  induction fuel with
  | zero => intro content c hc; simp [slideChunksFuel] at hc
  | succ fuel ih =>
    intro content c hc
    rw [slideChunksFuel] at hc
    by_cases h0 : content.length = 0
    · rw [if_pos h0] at hc; simp at hc
    · rw [if_neg h0] at hc
      by_cases h1 : content.length ≤ S
      · rw [if_pos h1] at hc
        simp only [List.mem_singleton] at hc
        exact hc ▸ h1
      · rw [if_neg h1] at hc
        rcases List.mem_cons.mp hc with rfl | hc
        · exact List.length_take_le S content
        · exact ih _ c hc

theorem slideChunks_length_le (S O : Nat) (content : List Char) :
    ∀ c ∈ slideChunks S O content, c.length ≤ S :=
  slideChunksFuel_length_le S O content.length content

theorem slideChunksFuel_chain (S O : Nat) (hO : O < S) (fuel : Nat) :
    ∀ content : List Char, content.length ≤ fuel →
    (slideChunksFuel S O fuel content).Chain'
      (fun a b => a.drop (S - O) <+: b ∧ (a.drop (S - O)).length ≤ O) := by
  induction fuel with
  | zero => intro content _; simp [slideChunksFuel]
  | succ fuel ih =>
    intro content hf
    rw [slideChunksFuel]
    by_cases h0 : content.length = 0
    · rw [if_pos h0]; exact List.chain'_nil
    · rw [if_neg h0]
      by_cases h1 : content.length ≤ S
      · rw [if_pos h1]; exact List.chain'_singleton _
      · rw [if_neg h1]
        have hst : stride S O = S - O := by
          unfold stride; omega
        have hlen : (content.drop (stride S O)).length = content.length - (S - O) := by
          rw [List.length_drop, hst]
        have hfr : (content.drop (stride S O)).length ≤ fuel := by omega
        have hrest : content.drop (stride S O) ≠ [] := by
          intro hnil
          rw [hnil] at hlen
          simp at hlen
          omega
        obtain ⟨tl, htl⟩ := slideChunksFuel_head S O fuel _ hrest hfr
        have hchain := ih _ hfr
        rw [htl] at hchain ⊢
        refine List.chain'_cons.mpr ⟨⟨?_, ?_⟩, hchain⟩
        · rw [List.drop_take]
          have hSO : S - (S - O) = O := by omega
          rw [hSO]
          have htt := List.take_take O S (content.drop (S - O))
          rw [Nat.min_eq_left (Nat.le_of_lt hO)] at htt
          rw [hst, ← htt]
          exact List.take_prefix O _
        · rw [List.drop_take]
          have hSO : S - (S - O) = O := by omega
          rw [hSO]
          exact List.length_take_le O _

theorem slideChunks_chain (S O : Nat) (hO : O < S) (content : List Char) :
    (slideChunks S O content).Chain'
      (fun a b => a.drop (S - O) <+: b ∧ (a.drop (S - O)).length ≤ O) :=
  slideChunksFuel_chain S O hO content.length content (Nat.le_refl _)

theorem chunkTextUnit_map_content (S O : Nat) (t : TextUnit) :
    (chunkTextUnit S O t).map (fun c => c.content) = slideChunks S O t.content := by
  unfold chunkTextUnit
  rw [List.map_map]
  have h : ((fun c : Chunk => c.content) ∘ fun p : Nat × List Char =>
      ({ content := p.2, source_id := t.source_id, page_number := t.page_number,
         chunk_index := p.1 } : Chunk)) = Prod.snd := rfl
  rw [h, List.enum_map_snd]

theorem ingestPages_eq (vision : String → Except String String) (fp : String)
    (imgs : List String) (i : Nat) :
    ingestPages vision fp imgs i =
      ((imgs.enumFrom i).filterMap (pageDoc vision fp),
       (imgs.enumFrom i).map (pageLogOf vision)) := by
  induction imgs generalizing i with
  | nil => simp [ingestPages]
  | cons img imgs ih =>
    rw [ingestPages, ih]
    cases h : vision img <;>
      simp [List.enumFrom_cons, List.filterMap_cons, pageDoc, pageLogOf, h]

theorem ingestPages_mem (vision : String → Except String String) (fp : String)
    (imgs : List String) (i : Nat) (d : Document)
    (hd : d ∈ (ingestPages vision fp imgs i).1) :
    d.metaSource = fp ∧ ∃ j, ∃ hj : j < imgs.length,
      d.metaPage = some (i + j + 1) ∧
      vision (imgs.get ⟨j, hj⟩) = .ok d.page_content := by
  induction imgs generalizing i with
  | nil => simp [ingestPages] at hd
  | cons img imgs ih =>
    rw [ingestPages] at hd
    cases h : vision img with
    | ok content =>
      rw [h] at hd
      rcases List.mem_cons.mp hd with rfl | hd
      · exact ⟨rfl, 0, by simp, by simp, by simpa using h⟩
      · obtain ⟨hs, j, hj, hp, hv⟩ := ih (i + 1) hd
        refine ⟨hs, j + 1, by simpa using hj, ?_, ?_⟩
        · rw [hp]; congr 1; omega
        · exact hv
    | error e =>
      rw [h] at hd
      obtain ⟨hs, j, hj, hp, hv⟩ := ih (i + 1) hd
      refine ⟨hs, j + 1, by simpa using hj, ?_, ?_⟩
      · rw [hp]; congr 1; omega
      · exact hv

/-! ## Claim theorems -/

/-- C2: the document loader skips a missing path with a diagnostic and an
existing-but-failing path with an error report, continuing the batch (one log
entry per input path, in input order); it returns the concatenation of all
successfully loaded pages in input-file order; and it terminates with exit
code 1 exactly when zero pages were loaded successfully. -/
theorem loader_contract (fs : String → FileStatus) (paths : List String) :
    ((load_pdf_documents fs paths).1 = .error 1 ↔
      paths.flatMap (pagesOf fs) = []) ∧
    (paths.flatMap (pagesOf fs) ≠ [] →
      (load_pdf_documents fs paths).1 = .ok (paths.flatMap (pagesOf fs))) ∧
    (load_pdf_documents fs paths).2 = paths.map (logOf fs) := by
  unfold load_pdf_documents
  rw [loadStep_foldl]
  by_cases h : paths.flatMap (pagesOf fs) = [] <;> simp [h]

theorem loader_contract_witness :
    ¬(["policy doc.pdf", "missing.pdf", "corrupt.pdf"].flatMap (pagesOf fsDemo) = []) ∧
    (load_pdf_documents fsDemo ["policy doc.pdf", "missing.pdf", "corrupt.pdf"]).1 =
      .ok (["policy doc.pdf", "missing.pdf", "corrupt.pdf"].flatMap (pagesOf fsDemo)) :=
  ⟨by decide,
   (loader_contract fsDemo ["policy doc.pdf", "missing.pdf", "corrupt.pdf"]).2.1 (by decide)⟩

/-- C3: when the RAG chain raises on a non-empty, non-exit question, the loop
reports the error as a query-level message and continues with the remaining
input exactly as a fresh loop would: no crash, next question accepted. -/
theorem query_error_keeps_loop_alive (rag_chain : List Char → Except String String)
    (line : List Char) (rest : List (Option (List Char))) (e : String)
    (hq : pyStrip line ≠ [])
    (hx : exitCommands.contains (pyLower (pyStrip line)) = false)
    (he : rag_chain (pyStrip line) = .error e) :
    run_interactive_chat rag_chain (some line :: rest) =
      (.errorMsg e :: (run_interactive_chat rag_chain rest).1,
       pyStrip line :: (run_interactive_chat rag_chain rest).2) := by
  rw [run_interactive_chat]
  simp only [hx, Bool.false_eq_true, if_false, if_neg hq, he]

theorem query_error_keeps_loop_alive_witness :
    run_interactive_chat chainUnreachable [some "hello".toList] =
      ([.errorMsg "connection refused", .goodbye], ["hello".toList]) := by
  have h := query_error_keeps_loop_alive chainUnreachable "hello".toList []
    "connection refused" (by decide) (by decide) rfl
  exact h.trans (by decide)

/-- C9: an input line that strips to the empty string is never forwarded to
the RAG chain: the loop prints the enter-a-question prompt and continues with
the remaining input, the forwarded-question log unchanged. -/
theorem blank_input_not_forwarded (rag_chain : List Char → Except String String)
    (line : List Char) (rest : List (Option (List Char)))
    (h : pyStrip line = []) :
    run_interactive_chat rag_chain (some line :: rest) =
      (.emptyPrompt :: (run_interactive_chat rag_chain rest).1,
       (run_interactive_chat rag_chain rest).2) := by
  rw [run_interactive_chat]
  simp only [h]
  rfl

theorem blank_input_not_forwarded_witness :
    pyStrip "   ".toList = [] ∧
    run_interactive_chat chainUnreachable [some "   ".toList, some "hi".toList] =
      (.emptyPrompt :: (run_interactive_chat chainUnreachable [some "hi".toList]).1,
       (run_interactive_chat chainUnreachable [some "hi".toList]).2) :=
  ⟨by decide,
   blank_input_not_forwarded chainUnreachable "   ".toList [some "hi".toList] (by decide)⟩

/-- C4: for positive `S` and `O < S` the Chunker never produces a chunk whose
content exceeds `S` characters, and for any two consecutive chunks of the
same TextUnit the part of the first chunk past its first `S - O` characters
(the only characters the second chunk can share) is a prefix of the second
chunk and has at most `O` characters. -/
theorem chunker_size_overlap_bounds (S O : Nat) (_hS : 0 < S) (hO : O < S)
    (t : TextUnit) :
    (∀ c ∈ chunkTextUnit S O t, c.content.length ≤ S) ∧
    (chunkTextUnit S O t).Chain'
      (fun a b => a.content.drop (S - O) <+: b.content ∧
        (a.content.drop (S - O)).length ≤ O) := by
  refine ⟨?_, ?_⟩
  · intro c hc
    have hmem : c.content ∈ (chunkTextUnit S O t).map (fun c => c.content) :=
      List.mem_map_of_mem _ hc
    rw [chunkTextUnit_map_content] at hmem
    exact slideChunks_length_le S O t.content _ hmem
  · have h := slideChunks_chain S O hO t.content
    rw [← chunkTextUnit_map_content S O t] at h
    exact (List.chain'_map _).mp h

theorem chunker_size_overlap_bounds_witness :
    0 < 5 ∧ 2 < 5 ∧ cDemo ∈ chunkTextUnit 5 2 tDemo ∧ cDemo.content.length ≤ 5 :=
  ⟨by decide, by decide, by decide,
   (chunker_size_overlap_bounds 5 2 (by decide) (by decide) tDemo).1 cDemo (by decide)⟩

/-- C8: chunking is deterministic — two runs on an identical TextUnit with
identical `chunk_size` and `chunk_overlap` produce identical Chunk
sequences (the model is a pure function of its inputs; the source
configures no randomized behavior). -/
theorem chunking_deterministic (t₁ t₂ : TextUnit) (S₁ S₂ O₁ O₂ : Nat)
    (ht : t₁ = t₂) (hS : S₁ = S₂) (hO : O₁ = O₂) :
    chunkTextUnit S₁ O₁ t₁ = chunkTextUnit S₂ O₂ t₂ := by
  subst ht; subst hS; subst hO; rfl

theorem chunking_deterministic_witness :
    tDemo = tDemo ∧ chunkTextUnit 5 2 tDemo = chunkTextUnit 5 2 tDemo :=
  ⟨rfl, chunking_deterministic tDemo tDemo 5 5 2 2 rfl rfl rfl⟩

/-- C7: in the vision-transcription path, the loop logs one line per PDF page
(an error line for each failed transcription) and the resulting document list
is exactly the successfully transcribed pages, in order — a failed page is
skipped, the remaining pages are still processed. -/
theorem transcription_partial_success (vision : String → Except String String)
    (fp : String) (imgs : List String) :
    ingest_pdf vision fp true (.ok imgs) =
      .ok (imgs.enum.filterMap (pageDoc vision fp),
           imgs.enum.map (pageLogOf vision)) := by
  rw [ingest_pdf, if_pos rfl, ingestPages_eq]
  rfl

/-- C10: every document the vision-transcription loop produces carries
`source` equal to the input file path and `page` equal to the page's 1-based
position in the original PDF: its content is the successful transcription of
exactly the page at that original position (so skipped pages never cause
renumbering). -/
theorem page_metadata_original_position (vision : String → Except String String)
    (fp : String) (imgs : List String) (d : Document)
    (hd : d ∈ (ingestPages vision fp imgs 0).1) :
    d.metaSource = fp ∧ ∃ j, ∃ hj : j < imgs.length,
      d.metaPage = some (j + 1) ∧
      vision (imgs.get ⟨j, hj⟩) = .ok d.page_content := by
  obtain ⟨hs, j, hj, hp, hv⟩ := ingestPages_mem vision fp imgs 0 d hd
  exact ⟨hs, j, hj, by simpa using hp, hv⟩

theorem page_metadata_original_position_witness :
    dDemo ∈ (ingestPages visionDemo "book.pdf" ["a", "bad", "c"] 0).1 ∧
    dDemo.metaSource = "book.pdf" :=
  ⟨by decide,
   (page_metadata_original_position visionDemo "book.pdf" ["a", "bad", "c"] dDemo
     (by decide)).1⟩

/-- C6 counterexample: with an empty retrieval result the code prints
"No relevant documents found." and returns `None` without ever reaching the
generation step (`llmCalls = []`, no answer printed) — it does not proceed to
generation with an empty context as the claim states. -/
theorem empty_retrieval_skips_generation :
    query_rag true storeEmpty llmConst "Any question" =
      .ok { retrieved := [], printedPages := [], noticeNoResults := true,
            llmCalls := [], printedAnswer := none, retVal := none } := rfl

/-- C6 (amended): a query whose retrieval returns zero chunks is treated as a
valid outcome, not an error — the pipeline prints a notice and returns
normally — but it does not proceed to the generation step: the provider is
not invoked and no answer is produced. -/
theorem empty_retrieval_valid_outcome (store : String → Nat → List Document)
    (llm : String → String) (query : String) (h : store query 3 = []) :
    query_rag true store llm query =
      .ok { retrieved := [], printedPages := [], noticeNoResults := true,
            llmCalls := [], printedAnswer := none, retVal := none } := by
  rw [query_rag]
  simp [h]

theorem empty_retrieval_valid_outcome_witness :
    storeEmpty "What is the capital of France?" 3 = [] ∧
    query_rag true storeEmpty llmConst "What is the capital of France?" =
      .ok { retrieved := [], printedPages := [], noticeNoResults := true,
            llmCalls := [], printedAnswer := none, retVal := none } :=
  ⟨rfl, empty_retrieval_valid_outcome storeEmpty llmConst
    "What is the capital of France?" rfl⟩

/-- C1 counterexample: the query pipeline does not invoke the generation
provider when retrieval is empty (`llmCalls = []`, not exactly once), and
even on a successful query the function returns `None` — the provider's text
and the provenance are printed, never returned. -/
theorem query_rag_not_as_specified :
    (query_rag true storeEmpty llmConst "What is the capital of France?").toOption.map
      QueryTrace.llmCalls = some [] ∧
    (query_rag true storeOne llmConst "What is the capital of France?").toOption.map
      QueryTrace.retVal = some none :=
  ⟨rfl, rfl⟩

/-- C1 (amended): for every question whose retrieval returns at least one
chunk, the pipeline requests the 3 nearest chunks, concatenates their
contents in similarity-rank order (joined by blank lines) as the context of a
single prompt, invokes the generation provider exactly once on that prompt,
prints the provider's raw text output and prints each retrieved chunk's page
number; the function returns `None` — answer and provenance are reported on
the console only, and `source_id` is not part of the reported provenance. -/
theorem query_rag_behavior (store : String → Nat → List Document)
    (llm : String → String) (query : String) (h : store query 3 ≠ []) :
    query_rag true store llm query =
      .ok { retrieved := store query 3,
            printedPages := (store query 3).map Document.metaPage,
            noticeNoResults := false,
            llmCalls := [buildQueryPrompt
              (String.intercalate "\n\n" ((store query 3).map Document.page_content))
              query],
            printedAnswer := some (llm (buildQueryPrompt
              (String.intercalate "\n\n" ((store query 3).map Document.page_content))
              query)),
            retVal := none } := by
  rw [query_rag]
  have hne : (store query 3).isEmpty = false := by
    simpa [List.isEmpty_iff] using h
  simp [hne]

theorem query_rag_behavior_witness :
    storeOne "What is the capital of France?" 3 ≠ [] ∧
    query_rag true storeOne llmConst "What is the capital of France?" =
      .ok { retrieved := [docParis],
            printedPages := [some 1],
            noticeNoResults := false,
            llmCalls := [buildQueryPrompt "Paris is the capital of France."
              "What is the capital of France?"],
            printedAnswer := some "Paris.",
            retVal := none } := by
  refine ⟨by decide, ?_⟩
  have h := query_rag_behavior storeOne llmConst "What is the capital of France?"
    (by decide)
  exact h.trans (by rfl)

/-- C5 counterexample: with the Chroma directory absent but the Poppler
directory missing, the program exits with code 1 without executing the
ingestion phase — "otherwise a full ingestion runs" does not hold
unconditionally. -/
theorem main_ingestion_guard_counterexample :
    (mainGemma false .absent (.ok [docParis])).ingestRan = false ∧
    (mainGemma false .absent (.ok [docParis])).exitCode = some 1 :=
  ⟨rfl, rfl⟩

/-- C5 (amended): ingestion executes exactly when the persisted store
directory is absent and the Poppler startup check passes; an existing store
is reused unchanged with no ingestion; a missing Poppler directory exits with
code 1 before any ingestion; and no incremental merge ever happens — the
resulting store is either the prior store unchanged or exactly the newly
ingested documents. -/
theorem main_full_reuse_or_full_rebuild (poppler : Bool) (store : StoreState)
    (ing : Except String (List Document)) :
    ((mainGemma poppler store ing).ingestRan = true ↔
      (poppler = true ∧ store = .absent)) ∧
    (poppler = false →
      (mainGemma poppler store ing).exitCode = some 1 ∧
      (mainGemma poppler store ing).storeAfter = store) ∧
    (store ≠ .absent → (mainGemma poppler store ing).storeAfter = store) ∧
    ((mainGemma poppler store ing).storeAfter = store ∨
      ∃ docs, ing = .ok docs ∧ docs ≠ [] ∧
        (mainGemma poppler store ing).storeAfter = .present docs) := by
  cases poppler with
  | false => cases store <;> simp [mainGemma]
  | true =>
    cases store with
    | present docs => simp [mainGemma]
    | absent =>
      cases ing with
      | error e => simp [mainGemma]
      | ok docs =>
        by_cases h : docs.isEmpty
        · simp [mainGemma, create_rag_db, h]
        · have hne : docs ≠ [] := by simpa [List.isEmpty_iff] using h
          simp [mainGemma, create_rag_db, h]
          exact hne

theorem main_full_reuse_or_full_rebuild_witness :
    (StoreState.present [docParis] ≠ StoreState.absent) ∧
    (mainGemma true (.present [docParis]) (.ok [])).storeAfter =
      .present [docParis] :=
  ⟨by decide,
   (main_full_reuse_or_full_rebuild true (.present [docParis]) (.ok [])).2.2.1
     (by decide)⟩

end RAGOllama
